import Mathlib

/-!
Verification of the built-in function layer of the Nik-Lang interpreter.

The definitions below are a shallow embedding of
`src/modules/builtin_core.rs`.  The runtime value type (`Value`) lives in
`src/interpreter/value.rs`, which is not among the available sources, so it
is modelled from the specification's data-model section.  I/O performed by
the built-ins (stdout text, the line read by `input`, process exit) is made
explicit: written text is returned as a `String` component, the result of
reading a line is a parameter, and `exit` returns an `ExitOutcome` instead
of diverging.  Rust `f64` values are embedded as rationals (`ℚ`), and Rust
`i64`/`i32` casts are modelled with explicit saturation/wrapping on `ℤ`.
-/

namespace NikLang

/-- Modelled from the spec: the runtime `Value` type of
`src/interpreter/value.rs` (not among the sources).  Spec §3 describes it as
a closed tagged union with variants `String`, `Integer` (64-bit signed),
`Float` (64-bit IEEE, embedded here as `ℚ`), `Bool`, `Null`, `Array`,
`Tuple`, `HashMap` (entries listed here as key/value pairs; the spec leaves
the key type open), and `Function` (a built-in or user closure, whose
payload the built-ins never inspect, so it is reduced to an opaque tag). -/
inductive Value where
  | String (s : String)
  | Integer (i : Int)
  | Float (f : ℚ)
  | Bool (b : Bool)
  | Null
  | Array (elems : List Value)
  | Tuple (elems : List Value)
  | HashMap (entries : List (Value × Value))
  | Function (tag : Nat)

/-- True exactly on the `error` constructor of a built-in result. -/
def isErr : Except String Value → Bool
  | .error _ => true
  | .ok _ => false

/-- The replacement table of `unescape_string`'s regex
`\\([ntr\\"'])` in `builtin_core.rs`: the six recognised escape
characters and the character each one is replaced by. -/
def escMap : Char → Option Char := fun c =>
  if c = 'n' then some '\n'
  else if c = 't' then some '\t'
  else if c = 'r' then some '\r'
  else if c = '\\' then some '\\'
  else if c = '"' then some '"'
  else if c = '\'' then some '\''
  else none

/-- Character-list form of `unescape_string` (`builtin_core.rs`):
`Regex::replace_all` scans left to right; at a backslash followed by one of
the six escape characters it emits the replacement and continues after the
two consumed characters, at any other position it emits the character and
advances by one.  Replaced text is never rescanned. -/
def unescapeChars : List Char → List Char
  | [] => []
  | [c] => [c]
  | c₁ :: c₂ :: rest =>
    if c₁ = '\\' then
      match escMap c₂ with
      | some e => e :: unescapeChars rest
      | none => c₁ :: unescapeChars (c₂ :: rest)
    else
      c₁ :: unescapeChars (c₂ :: rest)

/-- `unescape_string` from `builtin_core.rs`, on `String`. -/
def unescape_string (s : String) : String := String.mk (unescapeChars s.data)

/-- Modelled from the spec: the textual rendering of a Rust `f64`
(`f.to_string()`); the `Display` code lives outside the available sources
and no claim depends on its exact text, so the rational embedding's own
rendering stands in for it. -/
def floatToString (q : ℚ) : String := toString q

mutual

/-- Modelled from the spec: `Value`'s `Display` rendering
(`v.to_string()` in `value.rs`, not among the sources).  The spec only
requires that `print` "stringifies" non-String arguments; the exact shapes
chosen here for aggregates are plausible placeholders that no claim
depends on. -/
def valueToString : Value → String
  | .String s => s
  | .Integer i => toString i
  | .Float q => floatToString q
  | .Bool b => toString b
  | .Null => "None"
  | .Array l => "[" ++ valueListToString l ++ "]"
  | .Tuple l => "(" ++ valueListToString l ++ ")"
  | .HashMap h => "\x7b" ++ valuePairsToString h ++ "\x7d"
  | .Function _ => "<function>"

/-- Comma-separated rendering of a list of values. -/
def valueListToString : List Value → String
  | [] => ""
  | [v] => valueToString v
  | v :: rest => valueToString v ++ ", " ++ valueListToString rest

/-- Comma-separated rendering of key/value entries. -/
def valuePairsToString : List (Value × Value) → String
  | [] => ""
  | [(k, v)] => valueToString k ++ ": " ++ valueToString v
  | (k, v) :: rest => valueToString k ++ ": " ++ valueToString v ++ ", " ++ valuePairsToString rest

end

/-- Modelled from the spec: the `derive(Debug)` rendering of a `Value`
interpolated by the `format!("... 'x7b:?'x7d", args[0])` error messages of
`builtin_core.rs` (`value.rs` is not among the sources).  No claim depends
on the exact text, only on which calls produce an error. -/
def valueDebug : Value → String
  | .String s => "String(\"" ++ s ++ "\")"
  | .Integer i => "Integer(" ++ toString i ++ ")"
  | .Float q => "Float(" ++ floatToString q ++ ")"
  | .Bool b => "Bool(" ++ toString b ++ ")"
  | .Null => "Null"
  | .Array l => "Array(" ++ valueListToString l ++ ")"
  | .Tuple l => "Tuple(" ++ valueListToString l ++ ")"
  | .HashMap h => "HashMap(" ++ valuePairsToString h ++ ")"
  | .Function t => "Function(" ++ toString t ++ ")"

/-- `builtin_print` from `builtin_core.rs`: each `String` argument is
unescaped, every other argument rendered with `to_string`, the pieces are
joined with a single space and written by `println!` (modelled as the
returned `String`, which appends one newline); the call always returns
`Ok(Null)`. -/
def builtin_print (args : List Value) : String × Except String Value :=
  let output : List String := args.map fun v =>
    match v with
    | .String s => unescape_string s
    | v => valueToString v
  (String.intercalate " " output ++ "\n", Except.ok Value.Null)

/-- `builtin_len` from `builtin_core.rs`: arity is checked first
(`args.len() != 1` errors), then `String` yields its byte count (Rust
`s.len()` = `String.utf8ByteSize`), `Array`/`Tuple` their element count,
`HashMap` its entry count, and every other variant reaches the error arm. -/
def builtin_len (args : List Value) : Except String Value :=
  match args with
  | [a] =>
    match a with
    | .String s => .ok (.Integer s.utf8ByteSize)
    | .Array l => .ok (.Integer l.length)
    | .Tuple l => .ok (.Integer l.length)
    | .HashMap h => .ok (.Integer h.length)
    | v => .error ("len() expects a string, array, tuple, or hashmap, but got " ++ valueDebug v)
  | _ => .error "len() takes exactly one argument"

/-- The four `Value` variants accepted by `builtin_len`'s match. -/
def lenSupported : Value → Bool
  | .String _ | .Array _ | .Tuple _ | .HashMap _ => true
  | _ => false

/-- `builtin_str` from `builtin_core.rs`: arity is checked first, then every
variant except `Function` yields a `String` (`String` unchanged,
`Integer`/`Float`/`Bool` via `to_string`, `Null` as the literal `"None"`,
aggregates via their debug rendering); `Function` reaches the error arm. -/
def builtin_str (args : List Value) : Except String Value :=
  match args with
  | [a] =>
    match a with
    | .String s => .ok (.String s)
    | .Integer i => .ok (.String (toString i))
    | .Float q => .ok (.String (floatToString q))
    | .Bool b => .ok (.String (toString b))
    | .Null => .ok (.String "None")
    | .Array l => .ok (.String (valueDebug (.Array l)))
    | .Tuple l => .ok (.String (valueDebug (.Tuple l)))
    | .HashMap h => .ok (.String (valueDebug (.HashMap h)))
    | v => .error ("str() expects a string, integer, float, boolean, array, tuple, or hashmap, but got " ++ valueDebug v)
  | _ => .error "str() takes exactly one argument"

/-- The eight `Value` variants accepted by `builtin_str`'s match (all but
`Function`). -/
def strSupported : Value → Bool
  | .Function _ => false
  | _ => true

/-- Rust `i64::from_str` (`s.parse::<i64>()` in `builtin_int`): an optional
single `+`/`-` sign followed by at least one ASCII digit, with the resulting
value required to fit in the signed 64-bit range; anything else is `none`. -/
def parseI64 (s : String) : Option Int :=
  let signDigits : Int × List Char :=
    match s.data with
    | '+' :: t => (1, t)
    | '-' :: t => (-1, t)
    | t => (1, t)
  let sign := signDigits.1
  let digits := signDigits.2
  if digits.isEmpty then none
  else if digits.all Char.isDigit then
    let v : Int := sign * (digits.foldl (fun a c => a * 10 + (c.toNat - '0'.toNat)) 0 : Nat)
    if -(2 ^ 63) ≤ v ∧ v ≤ 2 ^ 63 - 1 then some v else none
  else none

/-- Truncation of a rational toward zero (`Int.tdiv` is T-division). -/
def ratTrunc (q : ℚ) : Int := Int.tdiv q.num q.den

/-- Rust's `f as i64` cast in `builtin_int`, on the rational embedding of
`f64`: truncation toward zero, saturating at the bounds of the signed
64-bit range (Rust float-to-integer `as` casts saturate). -/
def f64ToI64 (q : ℚ) : Int :=
  if ratTrunc q < -(2 ^ 63) then -(2 ^ 63)
  else if 2 ^ 63 - 1 < ratTrunc q then 2 ^ 63 - 1
  else ratTrunc q

/-- `builtin_int` from `builtin_core.rs`: arity is checked first, then a
`String` is parsed with `i64::from_str`, an `Integer` is returned unchanged,
a `Float` is cast with `as i64`, and every other variant reaches the error
arm. -/
def builtin_int (args : List Value) : Except String Value :=
  match args with
  | [a] =>
    match a with
    | .String s =>
      match parseI64 s with
      | some n => .ok (.Integer n)
      | none => .error ("Invalid string for int conversion: " ++ s)
    | .Integer i => .ok (.Integer i)
    | .Float q => .ok (.Integer (f64ToI64 q))
    | v => .error ("int() expects a string, integer, or float, but got " ++ valueDebug v)
  | _ => .error "int() takes exactly one argument"

/-- The three `Value` variants accepted by `builtin_int`'s match. -/
def intSupported : Value → Bool
  | .String _ | .Integer _ | .Float _ => true
  | _ => false

/-- `builtin_bool` from `builtin_core.rs`: arity is checked first, then a
`String` maps to whether it is non-empty, an `Integer` to `i != 0`, a
`Float` to `f != 0.0`, and every other variant reaches the error arm. -/
def builtin_bool (args : List Value) : Except String Value :=
  match args with
  | [a] =>
    match a with
    | .String s => .ok (.Bool (!s.isEmpty))
    | .Integer i => .ok (.Bool (i != 0))
    | .Float q => .ok (.Bool (q != 0))
    | v => .error ("bool() expects a string, integer, or float, but got " ++ valueDebug v)
  | _ => .error "bool() takes exactly one argument"

/-- The three `Value` variants accepted by `builtin_bool`'s match. -/
def boolSupported : Value → Bool
  | .String _ | .Integer _ | .Float _ => true
  | _ => false

/-- `builtin_type` from `builtin_core.rs`: arity is checked first, then each
of the eight data variants yields its kind name (`Bool` prints as
`"Boolean"`, `Null` as `"None"`); only `Function` reaches the error arm. -/
def builtin_type (args : List Value) : Except String Value :=
  match args with
  | [a] =>
    match a with
    | .String _ => .ok (.String "String")
    | .Integer _ => .ok (.String "Integer")
    | .Float _ => .ok (.String "Float")
    | .Bool _ => .ok (.String "Boolean")
    | .Null => .ok (.String "None")
    | .Array _ => .ok (.String "Array")
    | .Tuple _ => .ok (.String "Tuple")
    | .HashMap _ => .ok (.String "HashMap")
    | v => .error ("type() only works with strings, integers, floats, booleans, none, arrays, tuples, and hashmaps, but got " ++ valueDebug v)
  | _ => .error "type() takes exactly one argument"

/-- Outcome of `builtin_exit`: either the process terminates with an `i32`
exit code (`std::process::exit` never returns), or an error `String` is
returned to the interpreter as with any other built-in. -/
inductive ExitOutcome where
  | exits (code : Int)
  | error (msg : String)

/-- True exactly on the `error` constructor of an `ExitOutcome`. -/
def exitIsErr : ExitOutcome → Bool
  | .error _ => true
  | .exits _ => false

/-- Rust's wrapping `i as i32` cast on `ℤ`: the value modulo `2^32`,
re-centred into `[-2^31, 2^31)`. -/
def wrapI32 (i : Int) : Int := (i + 2 ^ 31) % 2 ^ 32 - 2 ^ 31

/-- `builtin_exit` from `builtin_core.rs`: arity is checked first, then an
`Integer` argument terminates the process via `std::process::exit(*i as
i32)` (the wrapping cast to `i32` is explicit here), and every other
variant reaches the error arm. -/
def builtin_exit (args : List Value) : ExitOutcome :=
  match args with
  | [a] =>
    match a with
    | .Integer i => .exits (wrapI32 i)
    | v => .error ("exit() only works with integer argument, got " ++ valueDebug v)
  | _ => .error "exit() takes exactly one argument"

/-- Rust `char::is_whitespace` (the Unicode `White_Space` property), used
by `str::trim` in `builtin_input`. -/
def rustIsWhitespace (c : Char) : Bool :=
  let n := c.toNat
  n == 0x09 || n == 0x0A || n == 0x0B || n == 0x0C || n == 0x0D || n == 0x20 ||
  n == 0x85 || n == 0xA0 || n == 0x1680 || (0x2000 ≤ n && n ≤ 0x200A) ||
  n == 0x2028 || n == 0x2029 || n == 0x202F || n == 0x205F || n == 0x3000

/-- Rust `str::trim` (`input.trim()` in `builtin_input`): removes leading
and trailing Unicode whitespace — not merely a trailing newline. -/
def rustTrim (s : String) : String :=
  String.mk (((s.data.dropWhile rustIsWhitespace).reverse.dropWhile rustIsWhitespace).reverse)

/-- The prompt/flush/read tail of `builtin_input` once a prompt is chosen:
the prompt is written (first component), then stdout is flushed (`flushErr
= some e` models a flush failure), then a line is read (`read = .error e`
models a `read_line` failure); on success the line is returned trimmed. -/
def inputRead (prompt : String) (flushErr : Option String)
    (read : Except String String) : Option String × Except String Value :=
  (some prompt,
    match flushErr with
    | some e => .error ("Failed to flush stdout: " ++ e)
    | none =>
      match read with
      | .error e => .error ("Failed to read input: " ++ e)
      | .ok line => .ok (.String (rustTrim line)))

/-- `builtin_input` from `builtin_core.rs`: with no argument the prompt is
`"> "`, with one `String` argument that string; a single non-String
argument or two-plus arguments error before anything is written (first
component `none`).  `flushErr` and `read` are the outcomes of the two I/O
calls the Rust code performs after writing the prompt. -/
def builtin_input (args : List Value) (flushErr : Option String)
    (read : Except String String) : Option String × Except String Value :=
  match args with
  | [] => inputRead "> " flushErr read
  | [a] =>
    match a with
    | .String s => inputRead s flushErr read
    | _ => (none, .error "input() argument must be a string")
  | _ => (none, .error ("input() takes at most one argument, but got " ++ toString args.length))

/-- C2: `len` on one argument returns the byte count of a `String`
(`len("hello") = 5`), the element count of an `Array` or `Tuple`, and the
entry count of a `HashMap`; it errors on zero or two-plus arguments and on
every other value kind. -/
theorem len_spec :
    (∀ s, builtin_len [Value.String s] = .ok (.Integer s.utf8ByteSize)) ∧
    (∀ l, builtin_len [Value.Array l] = .ok (.Integer l.length)) ∧
    (∀ l, builtin_len [Value.Tuple l] = .ok (.Integer l.length)) ∧
    (∀ h, builtin_len [Value.HashMap h] = .ok (.Integer h.length)) ∧
    builtin_len [Value.String "hello"] = .ok (.Integer 5) ∧
    (∀ v, lenSupported v = false → isErr (builtin_len [v]) = true) ∧
    isErr (builtin_len []) = true ∧
    (∀ a b r, isErr (builtin_len (a :: b :: r)) = true) := by
  refine ⟨fun s => rfl, fun l => rfl, fun l => rfl, fun h => rfl, rfl, ?_, rfl, fun a b r => rfl⟩
  intro v h
  cases v <;> simp_all [lenSupported, builtin_len, isErr]

/-- Witness for `len_spec`'s unsupported-kind clause at the concrete
argument `Null`. -/
theorem len_spec_witness :
    lenSupported Value.Null = false ∧ isErr (builtin_len [Value.Null]) = true :=
  ⟨rfl, len_spec.2.2.2.2.2.1 Value.Null rfl⟩

/-- C3: `bool` on one argument maps an `Integer` to `true` iff it is
nonzero, a `Float` to `true` iff it is nonzero, a `String` to `true` iff it
is non-empty (`bool(0)` = false, `bool(1)` = true, `bool("")` = false,
`bool("x")` = true); every other kind, and zero or two-plus arguments,
error. -/
theorem bool_spec :
    (∀ i : Int, builtin_bool [Value.Integer i] = .ok (.Bool (i != 0))) ∧
    (∀ i : Int, builtin_bool [Value.Integer i] = .ok (.Bool true) ↔ i ≠ 0) ∧
    (∀ q : ℚ, builtin_bool [Value.Float q] = .ok (.Bool true) ↔ q ≠ 0) ∧
    (∀ s : String, builtin_bool [Value.String s] = .ok (.Bool true) ↔ s ≠ "") ∧
    builtin_bool [Value.Integer 0] = .ok (.Bool false) ∧
    builtin_bool [Value.Integer 1] = .ok (.Bool true) ∧
    builtin_bool [Value.String ""] = .ok (.Bool false) ∧
    builtin_bool [Value.String "x"] = .ok (.Bool true) ∧
    (∀ v, boolSupported v = false → isErr (builtin_bool [v]) = true) ∧
    isErr (builtin_bool []) = true ∧
    (∀ a b r, isErr (builtin_bool (a :: b :: r)) = true) := by
  refine ⟨fun i => rfl, ?_, ?_, ?_, rfl, rfl, rfl, rfl, ?_, rfl, fun a b r => rfl⟩
  · intro i; simp [builtin_bool]
  · intro q; simp [builtin_bool]
  · intro s
    simp only [builtin_bool, Except.ok.injEq, Value.Bool.injEq, Bool.not_eq_true',
      Bool.not_eq_true, ne_eq]
    refine ⟨fun h hs => by subst hs; exact absurd h (by decide), fun h => ?_⟩
    cases hs : s.isEmpty
    · rfl
    · exact absurd ((String.isEmpty_iff s).mp hs) h
  · intro v h; cases v <;> simp_all [boolSupported, builtin_bool, isErr]

/-- Witness for `bool_spec`'s unsupported-kind clause at the concrete
argument `Null`. -/
theorem bool_spec_witness :
    boolSupported Value.Null = false ∧ isErr (builtin_bool [Value.Null]) = true :=
  ⟨rfl, bool_spec.2.2.2.2.2.2.2.2.1 Value.Null rfl⟩

/-- C4 counterexample: at the `Float` `2^63` (exactly representable in
`f64`), truncation toward zero gives `2^63`, but the code's `as i64` cast
saturates and `int` returns `2^63 - 1`, so "a Float argument is truncated
toward zero" fails at this input. -/
theorem int_trunc_counterexample :
    builtin_int [Value.Float (mkRat 9223372036854775808 1)] =
        .ok (.Integer 9223372036854775807) ∧
    ratTrunc (mkRat 9223372036854775808 1) = 9223372036854775808 ∧
    (9223372036854775807 : Int) ≠ 9223372036854775808 :=
  ⟨rfl, by decide, by decide⟩

/-- C4 as amended: `int` on one argument parses a `String` with Rust's
strict decimal 64-bit parse, returns an `Integer` unchanged, and converts a
`Float` by truncation toward zero saturated to the signed 64-bit range;
wrong arity and other kinds error. -/
theorem int_spec :
    (∀ s n, parseI64 s = some n → builtin_int [Value.String s] = .ok (.Integer n)) ∧
    (∀ s, parseI64 s = none → isErr (builtin_int [Value.String s]) = true) ∧
    parseI64 "123" = some 123 ∧
    parseI64 "-9223372036854775808" = some (-9223372036854775808) ∧
    parseI64 "9223372036854775808" = none ∧
    parseI64 "1.5" = none ∧
    parseI64 "" = none ∧
    (∀ i, builtin_int [Value.Integer i] = .ok (.Integer i)) ∧
    (∀ q : ℚ, builtin_int [Value.Float q] = .ok (.Integer (f64ToI64 q))) ∧
    (∀ q : ℚ, -(2 ^ 63) ≤ ratTrunc q → ratTrunc q ≤ 2 ^ 63 - 1 → f64ToI64 q = ratTrunc q) ∧
    f64ToI64 (mkRat 7 2) = 3 ∧
    f64ToI64 (mkRat (-7) 2) = -3 ∧
    (∀ v, intSupported v = false → isErr (builtin_int [v]) = true) ∧
    isErr (builtin_int []) = true ∧
    (∀ a b r, isErr (builtin_int (a :: b :: r)) = true) := by
  refine ⟨?_, ?_, rfl, rfl, rfl, rfl, rfl, fun i => rfl, fun q => rfl, ?_,
    by decide, by decide, ?_, rfl, fun a b r => rfl⟩
  · intro s n h; simp [builtin_int, h]
  · intro s h; simp [builtin_int, h, isErr]
  · intro q h₁ h₂; unfold f64ToI64; split_ifs <;> omega
  · intro v h; cases v <;> simp_all [intSupported, builtin_int, isErr]

/-- Witness for `int_spec`'s hypothesised clauses at concrete inputs:
a parsable string, an unparsable string, an in-range `Float`, and an
unsupported kind. -/
theorem int_spec_witness :
    (parseI64 "42" = some 42 ∧ builtin_int [Value.String "42"] = .ok (.Integer 42)) ∧
    (parseI64 "x" = none ∧ isErr (builtin_int [Value.String "x"]) = true) ∧
    (-(2 ^ 63) ≤ ratTrunc (mkRat 7 2) ∧ ratTrunc (mkRat 7 2) ≤ 2 ^ 63 - 1 ∧
      f64ToI64 (mkRat 7 2) = ratTrunc (mkRat 7 2)) ∧
    (intSupported Value.Null = false ∧ isErr (builtin_int [Value.Null]) = true) :=
  ⟨⟨rfl, int_spec.1 "42" 42 rfl⟩,
   ⟨rfl, int_spec.2.1 "x" rfl⟩,
   ⟨by decide, by decide,
    int_spec.2.2.2.2.2.2.2.2.2.1 (mkRat 7 2) (by decide) (by decide)⟩,
   ⟨rfl, int_spec.2.2.2.2.2.2.2.2.2.2.2.2.1 Value.Null rfl⟩⟩

/-- C5: `print` accepts any argument list, unescapes `String` arguments,
stringifies the others, joins the pieces with a single space, writes the
result as one line (one trailing newline appended), and always returns
`Ok(Null)`, never an error. -/
theorem print_spec :
    ∀ args : List Value,
      builtin_print args =
        (String.intercalate " " (args.map fun v =>
            match v with
            | Value.String s => unescape_string s
            | v => valueToString v) ++ "\n",
          Except.ok Value.Null) :=
  fun _ => rfl

/-- C6: the unescaping applied by `print` replaces, scanning left to
right, each backslash followed by one of `n t r \ " '` with the
corresponding single character, and `print` applies it to a lone `String`
argument. -/
theorem unescape_spec :
    (∀ r, unescapeChars ('\\' :: 'n' :: r) = '\n' :: unescapeChars r) ∧
    (∀ r, unescapeChars ('\\' :: 't' :: r) = '\t' :: unescapeChars r) ∧
    (∀ r, unescapeChars ('\\' :: 'r' :: r) = '\r' :: unescapeChars r) ∧
    (∀ r, unescapeChars ('\\' :: '\\' :: r) = '\\' :: unescapeChars r) ∧
    (∀ r, unescapeChars ('\\' :: '"' :: r) = '"' :: unescapeChars r) ∧
    (∀ r, unescapeChars ('\\' :: '\'' :: r) = '\'' :: unescapeChars r) ∧
    unescape_string "a\\nb" = "a\nb" ∧
    (∀ s, builtin_print [Value.String s] =
      (unescape_string s ++ "\n", Except.ok Value.Null)) := by
  refine ⟨fun r => rfl, fun r => rfl, fun r => rfl, fun r => rfl, fun r => rfl,
    fun r => rfl, rfl, ?_⟩
  intro s
  simp [builtin_print, String.intercalate, String.intercalate.go]

/-- C7: `str` on one argument returns a `String` for every supported kind:
a `String` unchanged, `Integer`/`Float`/`Bool` in their textual form, and
`Null` as the literal text `"None"`; zero or two-plus arguments, and the
unsupported `Function` kind, error. -/
theorem str_spec :
    (∀ s, builtin_str [Value.String s] = .ok (.String s)) ∧
    (∀ i : Int, builtin_str [Value.Integer i] = .ok (.String (toString i))) ∧
    (∀ q : ℚ, builtin_str [Value.Float q] = .ok (.String (floatToString q))) ∧
    (∀ b : Bool, builtin_str [Value.Bool b] = .ok (.String (if b then "true" else "false"))) ∧
    builtin_str [Value.Null] = .ok (.String "None") ∧
    (∀ v, strSupported v = true → ∃ s, builtin_str [v] = .ok (.String s)) ∧
    (∀ t, isErr (builtin_str [Value.Function t]) = true) ∧
    isErr (builtin_str []) = true ∧
    (∀ a b r, isErr (builtin_str (a :: b :: r)) = true) := by
  refine ⟨fun s => rfl, fun i => rfl, fun q => rfl, ?_, rfl, ?_, fun t => rfl, rfl,
    fun a b r => rfl⟩
  · intro b; cases b <;> rfl
  · intro v h; cases v <;> simp_all [strSupported, builtin_str]

/-- Witness for `str_spec`'s supported-kind clause at the concrete
argument `Null`. -/
theorem str_spec_witness :
    strSupported Value.Null = true ∧ ∃ s, builtin_str [Value.Null] = .ok (.String s) :=
  ⟨rfl, str_spec.2.2.2.2.2.1 Value.Null rfl⟩

/-- C8 counterexample: at the in-range `Integer` `2^32`, the code's `as
i32` cast wraps and the process exits with code `0`, not `2^32`, so
"terminates the whole process with that Integer as exit code" fails at
this input. -/
theorem exit_code_counterexample :
    builtin_exit [Value.Integer 4294967296] = ExitOutcome.exits 0 ∧
    (4294967296 : Int) ≠ 0 :=
  ⟨rfl, by decide⟩

/-- C8 as amended: `exit` errors exactly on wrong arity or a non-Integer
argument; a single `Integer` argument terminates the process (it never
returns a `Value`) with the argument wrapped to a signed 32-bit exit code,
the identity on `[-2^31, 2^31)`. -/
theorem exit_spec :
    (∀ i : Int, builtin_exit [Value.Integer i] = .exits (wrapI32 i)) ∧
    (∀ i : Int, -(2 ^ 31) ≤ i → i ≤ 2 ^ 31 - 1 → builtin_exit [Value.Integer i] = .exits i) ∧
    (∀ i : Int, exitIsErr (builtin_exit [Value.Integer i]) = false) ∧
    (∀ v, (∀ i, v ≠ Value.Integer i) → exitIsErr (builtin_exit [v]) = true) ∧
    exitIsErr (builtin_exit []) = true ∧
    (∀ a b r, exitIsErr (builtin_exit (a :: b :: r)) = true) := by
  refine ⟨fun i => rfl, ?_, fun i => rfl, ?_, rfl, fun a b r => rfl⟩
  · intro i h₁ h₂
    have hw : wrapI32 i = i := by unfold wrapI32; omega
    simp [builtin_exit, hw]
  · intro v h
    cases v <;> first | rfl | exact absurd rfl (h _)

/-- Witness for `exit_spec`'s hypothesised clauses at the concrete inputs
`7` (in the 32-bit range) and `Null` (not an `Integer`). -/
theorem exit_spec_witness :
    builtin_exit [Value.Integer 7] = ExitOutcome.exits 7 ∧
    exitIsErr (builtin_exit [Value.Null]) = true :=
  ⟨exit_spec.2.1 7 (by decide) (by decide),
   exit_spec.2.2.2.1 Value.Null (fun i h => Value.noConfusion h)⟩

/-- C9: `type` on one argument returns exactly the kind names `"String"`,
`"Integer"`, `"Float"`, `"Boolean"`, `"None"`, `"Array"`, `"Tuple"`, and
`"HashMap"` for the eight data kinds, reaching the error arm for none of
them. -/
theorem type_spec :
    (∀ s, builtin_type [Value.String s] = .ok (.String "String")) ∧
    (∀ i, builtin_type [Value.Integer i] = .ok (.String "Integer")) ∧
    (∀ q, builtin_type [Value.Float q] = .ok (.String "Float")) ∧
    (∀ b, builtin_type [Value.Bool b] = .ok (.String "Boolean")) ∧
    builtin_type [Value.Null] = .ok (.String "None") ∧
    (∀ l, builtin_type [Value.Array l] = .ok (.String "Array")) ∧
    (∀ l, builtin_type [Value.Tuple l] = .ok (.String "Tuple")) ∧
    (∀ h, builtin_type [Value.HashMap h] = .ok (.String "HashMap")) :=
  ⟨fun s => rfl, fun i => rfl, fun q => rfl, fun b => rfl, rfl, fun l => rfl,
   fun l => rfl, fun h => rfl⟩

/-- C10: unescaping leaves a backslash followed by a character outside the
six-character escape set unchanged (continuing the scan at that following
character), leaves a trailing lone backslash unchanged, and never rescans
replaced text: the four characters `\\n` unescape to backslash-then-`n`,
not to a newline. -/
theorem unescape_fallback_spec :
    (∀ c r, escMap c = none → unescapeChars ('\\' :: c :: r) = '\\' :: unescapeChars (c :: r)) ∧
    unescapeChars ['\\'] = ['\\'] ∧
    unescape_string "\\\\n" = "\\n" ∧
    ("\\n" : String) ≠ "\n" := by
  refine ⟨?_, rfl, rfl, by decide⟩
  intro c r h
  simp [unescapeChars, h]

/-- Witness for `unescape_fallback_spec`'s unknown-escape clause at the
concrete character `x`. -/
theorem unescape_fallback_witness :
    escMap 'x' = none ∧ unescapeChars ['\\', 'x'] = '\\' :: unescapeChars ['x'] :=
  ⟨rfl, unescape_fallback_spec.1 'x' [] rfl⟩

/-- C1 counterexample: with no argument and the line `"  hi  \n"` on the
input stream, `input` returns `"hi"` — Rust `str::trim` strips the leading
and trailing spaces as well — whereas stripping only the trailing newline
would return `"  hi  "`. -/
theorem input_trim_counterexample :
    builtin_input [] none (.ok "  hi  \n") = (some "> ", .ok (.String "hi")) ∧
    ("hi" : String) ≠ "  hi  " :=
  ⟨rfl, by decide⟩

/-- C1 as amended: `input` writes the prompt `"> "` with zero arguments
and the given string with one `String` argument, then returns the line
read with leading and trailing Unicode whitespace trimmed (Rust
`str::trim`), not merely the trailing newline; it errors on two-plus
arguments, a single non-String argument (both before writing anything),
and on an I/O failure of the flush or the read. -/
theorem input_spec :
    (∀ fe rd, (builtin_input [] fe rd).1 = some "> ") ∧
    (∀ p fe rd, (builtin_input [Value.String p] fe rd).1 = some p) ∧
    (∀ l, builtin_input [] none (.ok l) = (some "> ", .ok (.String (rustTrim l)))) ∧
    (∀ p l, builtin_input [Value.String p] none (.ok l) = (some p, .ok (.String (rustTrim l)))) ∧
    rustTrim "  hi  \n" = "hi" ∧
    (∀ v fe rd, (∀ s, v ≠ Value.String s) →
      builtin_input [v] fe rd = (none, .error "input() argument must be a string")) ∧
    (∀ a b r fe rd, (builtin_input (a :: b :: r) fe rd).1 = none ∧
      isErr (builtin_input (a :: b :: r) fe rd).2 = true) ∧
    (∀ p e rd, isErr (builtin_input [Value.String p] (some e) rd).2 = true) ∧
    (∀ p e, isErr (builtin_input [Value.String p] none (.error e)).2 = true) := by
  refine ⟨fun fe rd => rfl, fun p fe rd => rfl, fun l => rfl, fun p l => rfl, rfl,
    ?_, fun a b r fe rd => ⟨rfl, rfl⟩, fun p e rd => rfl, fun p e => rfl⟩
  intro v fe rd h
  cases v <;> first | rfl | exact absurd rfl (h _)

/-- Witness for `input_spec`'s non-String-argument clause at the concrete
argument `Null`. -/
theorem input_spec_witness :
    builtin_input [Value.Null] none (.ok "x") =
      (none, .error "input() argument must be a string") :=
  input_spec.2.2.2.2.2.1 Value.Null none (.ok "x") (fun s h => Value.noConfusion h)

end NikLang
